import Mathlib

/-!
Verification of the on-screen-controllers widget engine (Dpad, RetrackableSlider,
ButtonController, JoystickController) against its specification.

The event handlers of the source mutate per-widget instance fields and invoke
user callbacks.  They are embedded here as pure functions from a state record
and an event record to the updated state paired with the list of callback
invocations performed by the handler (in order).  DOM-only effects (style
updates, logging, preventDefault, setPointerCapture) have no observable state
in the model.  Layout reads (getBoundingClientRect, offsetWidth) are modelled
by keeping the measured quantities as state fields that layout leaves
unchanged, so updateContainerRectangle is the identity on the model state.

The dpad move handler first derives, from the raw client coordinates, the
inversely rotated offset, its polar angle in degrees (atan2) and its distance
from the anchor-rectangle center, and then classifies those two rational
quantities.  A dpad move event is therefore modelled by the triple
(pointerId, angle, centerDistance) it gives rise to, and the classification
block of the source is embedded verbatim as dpadComputeDirection.
The joystick pipeline, which needs hypot and cosine, is embedded over the
real numbers further below.
-/

/-- The nine dpad directions of the source union type `direction`. -/
inductive DpadDirection where
  | center
  | up
  | down
  | left
  | right
  | upRight
  | downRight
  | upLeft
  | downLeft
deriving DecidableEq

/-- State of a DpadController instance: the fields of the class that the
event handlers read or write.  `inputRegisterDistance` is the dead-zone
radius recomputed from layout on acquire; layout is constant in the model. -/
structure DpadState where
  isPressed : Bool
  pointerId : ℤ
  currentDirection : DpadDirection
  inputRegisterDistance : ℚ
deriving DecidableEq

/-- A dpad move event, described by the contact identifier it carries and the
two derived quantities the handler classifies: `angle = atan2(-y, x)` in
degrees of the inversely rotated offset, and `centerDistance = hypot(x, y)`. -/
structure DpadMoveEvent where
  pointerId : ℤ
  angle : ℚ
  centerDistance : ℚ
deriving DecidableEq

/-- The direction classification block of `DpadController.onDpadMove`
(Dpad.ts lines 472 to 484): `direction` starts at `center`; if the distance
from the center exceeds the input register threshold it is classified by the
45 degree sector chain, each test with exclusive lower and inclusive upper
bound, exactly as in the source. -/
def dpadComputeDirection (angle centerDistance inputRegisterDistance : ℚ) :
    DpadDirection :=
  if centerDistance > inputRegisterDistance then
    if -22.5 < angle ∧ angle ≤ 22.5 then .right
    else if 22.5 < angle ∧ angle ≤ 67.5 then .upRight
    else if 67.5 < angle ∧ angle ≤ 112.5 then .up
    else if 112.5 < angle ∧ angle ≤ 157.5 then .upLeft
    else if 157.5 < angle ∨ angle ≤ -157.5 then .left
    else if -157.5 < angle ∧ angle ≤ -112.5 then .downLeft
    else if -112.5 < angle ∧ angle ≤ -67.5 then .down
    else if -67.5 < angle ∧ angle ≤ -22.5 then .downRight
    else .center
  else .center

/-- `DpadController.onDpadMove`: returns the updated state and the list of
`onPressCallback` invocations (their direction argument).  The handler bails
out when not pressed; it performs no comparison of `e.pointerId` with the
stored `pointerId`.  On a direction change it stores the new direction and
fires the press callback once. -/
def onDpadMove (s : DpadState) (e : DpadMoveEvent) :
    DpadState × List DpadDirection :=
  if !s.isPressed then (s, [])
  else
    let direction :=
      dpadComputeDirection e.angle e.centerDistance s.inputRegisterDistance
    if s.currentDirection ≠ direction then
      ({ s with currentDirection := direction }, [direction])
    else (s, [])

/-- `DpadController.onDpadDown`, pointer-event branch: marks pressed, stores
the pointer identifier of the event, refreshes the container rectangle
(identity on the model state) and forwards the event to `onDpadMove`. -/
def onDpadDown (s : DpadState) (e : DpadMoveEvent) :
    DpadState × List DpadDirection :=
  let s1 := { s with isPressed := true, pointerId := e.pointerId }
  onDpadMove s1 e

/-- `DpadController.onDpadUp`: resets the pressed flag and the stored pointer
identifier, resets the direction to center, and fires the release callback
with `center`, with no guard of any kind. -/
def onDpadUp (s : DpadState) : DpadState × List DpadDirection :=
  let s1 := { s with isPressed := false, pointerId := -1,
                     currentDirection := DpadDirection.center }
  (s1, [DpadDirection.center])

/-- Runs a list of move events through `onDpadMove`, concatenating the
callback invocations of each step. -/
def runDpadMoves (s : DpadState) :
    List DpadMoveEvent → DpadState × List DpadDirection
  | [] => (s, [])
  | e :: rest =>
    ((runDpadMoves (onDpadMove s e).1 rest).1,
     (onDpadMove s e).2 ++ (runDpadMoves (onDpadMove s e).1 rest).2)

/-- Orientation of a RetrackableSlider (source union type, default
vertical; any other configured string takes the horizontal branch). -/
inductive SliderOrientation where
  | vertical
  | horizontal
deriving DecidableEq

/-- An axis-aligned screen rectangle with rational coordinates, as returned
by getBoundingClientRect. -/
structure RectQ where
  left : ℚ
  top : ℚ
  width : ℚ
  height : ℚ
deriving DecidableEq

/-- A pointer event as consumed by the slider: client coordinates only. -/
structure SliderEventQ where
  clientX : ℚ
  clientY : ℚ
deriving DecidableEq

/-- State of a RetrackableSlider instance. -/
structure SliderState where
  sliderDir : SliderOrientation
  isPressed : Bool
  valuePercent : ℚ
  baseRect : RectQ
deriving DecidableEq

/-- The raw (unclamped) percentage computed by
`RetrackableSlider.setSliderValue` from the event position and the base
rectangle: vertical gives `100 - (clientY - top) / height * 100`, horizontal
gives `(clientX - left) / width * 100`. -/
def sliderRawValue (s : SliderState) (e : SliderEventQ) : ℚ :=
  if s.sliderDir = SliderOrientation.vertical then
    100 - ((e.clientY - s.baseRect.top) / s.baseRect.height) * 100
  else
    ((e.clientX - s.baseRect.left) / s.baseRect.width) * 100

/-- The clamped, rounded value of `setSliderValue`:
`Math.round(Math.max(0, Math.min(100, value)))`. -/
def sliderMappedValue (s : SliderState) (e : SliderEventQ) : ℚ :=
  ((round (max 0 (min 100 (sliderRawValue s e))) : ℤ) : ℚ)

/-- `RetrackableSlider.setSliderValue`: refreshes the container rectangle
(identity in the model), computes the clamped rounded value, and only when it
differs from the stored `valuePercent` stores it and fires `onSlideCallback`
with the new value.  The returned list holds the `onSlideCallback`
invocations. -/
def setSliderValue (s : SliderState) (e : SliderEventQ) :
    SliderState × List ℚ :=
  let value := sliderMappedValue s e
  if s.valuePercent ≠ value then
    ({ s with valuePercent := value }, [value])
  else (s, [])

/-- `RetrackableSlider.onSliderMove`: bails out when not pressed, otherwise
sets the slider value. -/
def onSliderMove (s : SliderState) (e : SliderEventQ) :
    SliderState × List ℚ :=
  if !s.isPressed then (s, [])
  else setSliderValue s e

/-- `RetrackableSlider.onSliderDown`: marks pressed and sets the slider
value from the event position. -/
def onSliderDown (s : SliderState) (e : SliderEventQ) :
    SliderState × List ℚ :=
  let s1 := { s with isPressed := true }
  setSliderValue s1 e

/-- `RetrackableSlider.onSliderUp`: marks not pressed; only when
`valuePercent` is nonzero it resets it to 0 and fires `onReleaseCallback`.
The boolean records whether the release callback fired. -/
def onSliderUp (s : SliderState) : SliderState × Bool :=
  let s1 := { s with isPressed := false }
  if s1.valuePercent ≠ 0 then
    ({ s1 with valuePercent := 0 }, true)
  else (s1, false)

/-- State of a ButtonController instance. -/
structure ButtonState where
  isPressed : Bool
deriving DecidableEq

/-- `ButtonController.onButtonDown`: a no-op when already pressed, otherwise
marks pressed and fires the press callback.  The number counts
`onPressCallback` invocations. -/
def onButtonDown (b : ButtonState) : ButtonState × ℕ :=
  if b.isPressed then (b, 0)
  else ({ isPressed := true }, 1)

/-- `ButtonController.onButtonUp`: a no-op when not pressed, otherwise marks
released and fires the release callback.  The number counts
`onReleaseCallback` invocations. -/
def onButtonUp (b : ButtonState) : ButtonState × ℕ :=
  if !b.isPressed then (b, 0)
  else ({ isPressed := false }, 1)

/-!
The joystick pipeline (`JoystickController.onJoysickMove` and friends) uses
`Math.hypot`, `Math.cos`, `Math.sin` and `Math.round`; its numbers are
idealised as real numbers, with `Math.round x = ⌊x + 1/2⌋` which is exactly
the `round` of Mathlib.
-/

/-- An axis-aligned screen rectangle with real coordinates. -/
structure RectR where
  left : ℝ
  top : ℝ
  width : ℝ
  height : ℝ

/-- A pointer event as consumed by the joystick. -/
structure PointerEventR where
  pointerId : ℤ
  clientX : ℝ
  clientY : ℝ

/-- State of a JoystickController instance.  `thumbMaxDistance` is the
max-travel radius recomputed from layout; layout is constant in the model. -/
structure JoystickState where
  isPressed : Bool
  rotationDeg : ℝ
  thumbMaxDistance : ℝ
  baseRect : RectR

/-- A callback invocation of the joystick: either `onInputCallback x y` or
`onReleaseCallback x y`. -/
inductive JoyCall where
  | input (x y : ℝ)
  | release (x y : ℝ)

/-- `Math.hypot x y`. -/
noncomputable def jsHypot (x y : ℝ) : ℝ := Real.sqrt (x ^ 2 + y ^ 2)

/-- `Math.round(v * 100) / 100`, the two-decimal rounding of the source. -/
noncomputable def jsRound2 (v : ℝ) : ℝ := ((round (v * 100) : ℤ) : ℝ) / 100

/-- The magnitude clamp of `onJoysickMove` (Joystick.ts lines 349 to 355):
when the distance from the center exceeds `thumbMaxDistance`, both
coordinates are scaled by `thumbMaxDistance / distance`. -/
noncomputable def joystickClamp (tmd x y : ℝ) : ℝ × ℝ :=
  if jsHypot x y > tmd then
    (x * (tmd / jsHypot x y), y * (tmd / jsHypot x y))
  else (x, y)

/-- The rotation correction of `onJoysickMove` (Joystick.ts lines 357 to
364): when the configured rotation is nonzero, the point is rotated by the
angle `-rotation * π / 180`. -/
noncomputable def joystickRotate (rotationDeg x y : ℝ) : ℝ × ℝ :=
  if rotationDeg ≠ 0 then
    (x * Real.cos (-rotationDeg * Real.pi / 180) -
       y * Real.sin (-rotationDeg * Real.pi / 180),
     x * Real.sin (-rotationDeg * Real.pi / 180) +
       y * Real.cos (-rotationDeg * Real.pi / 180))
  else (x, y)

/-- The full offset-to-output mapping of `onJoysickMove`: clamp the offset to
the travel disc, apply the inverse rotation, then normalize each coordinate
by `thumbMaxDistance` (the y coordinate negated) and round to two decimals. -/
noncomputable def joystickMoveOutput (rotationDeg tmd dx dy : ℝ) : ℝ × ℝ :=
  let c := joystickClamp tmd dx dy
  let r := joystickRotate rotationDeg c.1 c.2
  (jsRound2 (r.1 / tmd), jsRound2 (-r.2 / tmd))

/-- `JoystickController.onJoysickMove`: bails out when not pressed; otherwise
computes the offset of the event from the base rectangle center, maps it
through clamp, rotation and normalization, and fires `onInputCallback` with
the result.  The state is unchanged by a move. -/
noncomputable def onJoysickMove (s : JoystickState) (e : PointerEventR) :
    JoystickState × List JoyCall :=
  if !s.isPressed then (s, [])
  else
    let baseCenterX := s.baseRect.left + s.baseRect.width / 2
    let baseCenterY := s.baseRect.top + s.baseRect.height / 2
    let out := joystickMoveOutput s.rotationDeg s.thumbMaxDistance
      (e.clientX - baseCenterX) (e.clientY - baseCenterY)
    (s, [JoyCall.input out.1 out.2])

/-- `JoystickController.onJoysickDown`: marks pressed (with no guard against
already being pressed), refreshes the container rectangle (identity in the
model) and forwards the event to `onJoysickMove`. -/
noncomputable def onJoysickDown (s : JoystickState) (e : PointerEventR) :
    JoystickState × List JoyCall :=
  let s1 := { s with isPressed := true }
  onJoysickMove s1 e

/-- `JoystickController.onJoysickUp` (also the pointercancel handler): marks
not pressed and fires `onReleaseCallback` with `(0, 0)`, with no guard of any
kind. -/
def onJoysickUp (s : JoystickState) : JoystickState × List JoyCall :=
  ({ s with isPressed := false }, [JoyCall.release 0 0])

/-- Mathematical rotation of a point by an angle given in degrees, used only
to build the visual-up test inputs of the rotation-invariance claim (the
inverse of the correction applied by `joystickRotate`). -/
noncomputable def rotPointDeg (θ x y : ℝ) : ℝ × ℝ :=
  (x * Real.cos (θ * Real.pi / 180) - y * Real.sin (θ * Real.pi / 180),
   x * Real.sin (θ * Real.pi / 180) + y * Real.cos (θ * Real.pi / 180))

/-!
Helper lemmas shared by the claim theorems.
-/

/-- Evaluation of `onDpadMove` on a pressed state when the event classifies
to the current direction: the handler is a no-op and fires nothing. -/
theorem onDpadMove_same (s : DpadState) (e : DpadMoveEvent)
    (hp : s.isPressed = true)
    (he : dpadComputeDirection e.angle e.centerDistance
      s.inputRegisterDistance = s.currentDirection) :
    onDpadMove s e = (s, []) := by
  unfold onDpadMove
  rw [hp, he]
  simp

/-- Evaluation of `onDpadMove` on a pressed state when the event classifies
to a direction different from the current one: the handler stores the new
direction and fires the press callback once with it. -/
theorem onDpadMove_diff (s : DpadState) (e : DpadMoveEvent) (d : DpadDirection)
    (hp : s.isPressed = true)
    (he : dpadComputeDirection e.angle e.centerDistance
      s.inputRegisterDistance = d)
    (hne : s.currentDirection ≠ d) :
    onDpadMove s e = ({ s with currentDirection := d }, [d]) := by
  unfold onDpadMove
  rw [hp, he]
  simp [hne]

/-- A run of move events that all classify to the current direction of a
pressed state is a no-op and fires nothing. -/
theorem runDpadMoves_const (s : DpadState) (es : List DpadMoveEvent)
    (hp : s.isPressed = true)
    (hall : ∀ e ∈ es,
      dpadComputeDirection e.angle e.centerDistance s.inputRegisterDistance =
        s.currentDirection) :
    runDpadMoves s es = (s, []) := by
  induction es with
  | nil => rfl
  | cons e rest ih =>
    have hstep : onDpadMove s e = (s, []) :=
      onDpadMove_same s e hp (hall e (List.mem_cons_self e rest))
    simp only [runDpadMoves, hstep]
    rw [ih (fun x hx => hall x (List.mem_cons_of_mem e hx))]
    simp

/-- C4: for every dpad move event while Tracking, with the derived angle and
center distance, a center distance at most the register distance classifies
as center, and otherwise the direction is given by the 45 degree sector
table with exclusive lower and inclusive upper bounds: right on
(-22.5, 22.5], up-right on (22.5, 67.5], up on (67.5, 112.5], up-left on
(112.5, 157.5], left on (157.5, 180] and (-180, -157.5], down-left on
(-157.5, -112.5], down on (-112.5, -67.5], down-right on (-67.5, -22.5]. -/
theorem spec_C4 (angle dist reg : ℚ) :
    (dist ≤ reg → dpadComputeDirection angle dist reg = DpadDirection.center) ∧
    (reg < dist →
      ((-22.5 < angle ∧ angle ≤ 22.5) →
        dpadComputeDirection angle dist reg = DpadDirection.right) ∧
      ((22.5 < angle ∧ angle ≤ 67.5) →
        dpadComputeDirection angle dist reg = DpadDirection.upRight) ∧
      ((67.5 < angle ∧ angle ≤ 112.5) →
        dpadComputeDirection angle dist reg = DpadDirection.up) ∧
      ((112.5 < angle ∧ angle ≤ 157.5) →
        dpadComputeDirection angle dist reg = DpadDirection.upLeft) ∧
      (((157.5 < angle ∧ angle ≤ 180) ∨ (-180 < angle ∧ angle ≤ -157.5)) →
        dpadComputeDirection angle dist reg = DpadDirection.left) ∧
      ((-157.5 < angle ∧ angle ≤ -112.5) →
        dpadComputeDirection angle dist reg = DpadDirection.downLeft) ∧
      ((-112.5 < angle ∧ angle ≤ -67.5) →
        dpadComputeDirection angle dist reg = DpadDirection.down) ∧
      ((-67.5 < angle ∧ angle ≤ -22.5) →
        dpadComputeDirection angle dist reg = DpadDirection.downRight)) := by
  constructor
  · intro h
    unfold dpadComputeDirection
    rw [if_neg (not_lt.mpr h)]
  · intro hgt
    have hc : dist > reg := hgt
    refine ⟨?_, ?_, ?_, ?_, ?_, ?_, ?_, ?_⟩
    · rintro ⟨h1, h2⟩
      unfold dpadComputeDirection
      rw [if_pos hc, if_pos ⟨h1, h2⟩]
    · rintro ⟨h1, h2⟩
      unfold dpadComputeDirection
      rw [if_pos hc, if_neg (by rintro ⟨-, hb⟩; linarith), if_pos ⟨h1, h2⟩]
    · rintro ⟨h1, h2⟩
      unfold dpadComputeDirection
      rw [if_pos hc, if_neg (by rintro ⟨-, hb⟩; linarith),
        if_neg (by rintro ⟨-, hb⟩; linarith), if_pos ⟨h1, h2⟩]
    · rintro ⟨h1, h2⟩
      unfold dpadComputeDirection
      rw [if_pos hc, if_neg (by rintro ⟨-, hb⟩; linarith),
        if_neg (by rintro ⟨-, hb⟩; linarith),
        if_neg (by rintro ⟨-, hb⟩; linarith), if_pos ⟨h1, h2⟩]
    · rintro (⟨h1, h2⟩ | ⟨h1, h2⟩)
      · unfold dpadComputeDirection
        rw [if_pos hc, if_neg (by rintro ⟨-, hb⟩; linarith),
          if_neg (by rintro ⟨-, hb⟩; linarith),
          if_neg (by rintro ⟨-, hb⟩; linarith),
          if_neg (by rintro ⟨-, hb⟩; linarith), if_pos (Or.inl h1)]
      · unfold dpadComputeDirection
        rw [if_pos hc, if_neg (by rintro ⟨ha, -⟩; linarith),
          if_neg (by rintro ⟨ha, -⟩; linarith),
          if_neg (by rintro ⟨ha, -⟩; linarith),
          if_neg (by rintro ⟨ha, -⟩; linarith), if_pos (Or.inr h2)]
    · rintro ⟨h1, h2⟩
      unfold dpadComputeDirection
      rw [if_pos hc, if_neg (by rintro ⟨ha, -⟩; linarith),
        if_neg (by rintro ⟨ha, -⟩; linarith),
        if_neg (by rintro ⟨ha, -⟩; linarith),
        if_neg (by rintro ⟨ha, -⟩; linarith),
        if_neg (by rintro (hb | hb) <;> linarith), if_pos ⟨h1, h2⟩]
    · rintro ⟨h1, h2⟩
      unfold dpadComputeDirection
      rw [if_pos hc, if_neg (by rintro ⟨ha, -⟩; linarith),
        if_neg (by rintro ⟨ha, -⟩; linarith),
        if_neg (by rintro ⟨ha, -⟩; linarith),
        if_neg (by rintro ⟨ha, -⟩; linarith),
        if_neg (by rintro (hb | hb) <;> linarith),
        if_neg (by rintro ⟨-, hb⟩; linarith), if_pos ⟨h1, h2⟩]
    · rintro ⟨h1, h2⟩
      unfold dpadComputeDirection
      rw [if_pos hc, if_neg (by rintro ⟨ha, -⟩; linarith),
        if_neg (by rintro ⟨ha, -⟩; linarith),
        if_neg (by rintro ⟨ha, -⟩; linarith),
        if_neg (by rintro ⟨ha, -⟩; linarith),
        if_neg (by rintro (hb | hb) <;> linarith),
        if_neg (by rintro ⟨-, hb⟩; linarith),
        if_neg (by rintro ⟨-, hb⟩; linarith), if_pos ⟨h1, h2⟩]

/-- Witness for C4: the boundary cases of the claim, obtained from spec_C4 at
concrete inputs with its hypotheses discharged there: angle 22.5 gives right,
angle 22.6 gives up-right, and a center distance equal to the register
distance gives center. -/
theorem spec_C4_witness :
    dpadComputeDirection 22.5 20 10 = DpadDirection.right ∧
    dpadComputeDirection 22.6 20 10 = DpadDirection.upRight ∧
    dpadComputeDirection 0 10 10 = DpadDirection.center :=
  ⟨((spec_C4 22.5 20 10).2 (by norm_num)).1 ⟨by norm_num, by norm_num⟩,
   ((spec_C4 22.6 20 10).2 (by norm_num)).2.1 ⟨by norm_num, by norm_num⟩,
   (spec_C4 0 10 10).1 (by norm_num)⟩

/-- C6: the dpad press callback fires only on a direction transition.  For a
pressed dpad and a nonempty run of move events that all classify to the same
direction d, the run fires the press callback exactly once (with d, at the
transition) when d differs from the current direction, and fires nothing at
all when d equals the current direction. -/
theorem spec_C6 (s : DpadState) (es : List DpadMoveEvent) (d : DpadDirection)
    (hp : s.isPressed = true) (hes : es ≠ [])
    (hall : ∀ e ∈ es,
      dpadComputeDirection e.angle e.centerDistance s.inputRegisterDistance =
        d) :
    (s.currentDirection = d → runDpadMoves s es = (s, [])) ∧
    (s.currentDirection ≠ d →
      runDpadMoves s es = ({ s with currentDirection := d }, [d])) := by
  constructor
  · intro hcur
    exact runDpadMoves_const s es hp (fun e he => by rw [hall e he, hcur])
  · intro hne
    match es, hes, hall with
    | e :: rest, _, hall =>
      have hstep : onDpadMove s e = ({ s with currentDirection := d }, [d]) :=
        onDpadMove_diff s e d hp (hall e (List.mem_cons_self e rest)) hne
      have hrest :
          runDpadMoves ({ s with currentDirection := d }) rest =
            ({ s with currentDirection := d }, []) :=
        runDpadMoves_const _ rest hp
          (fun x hx => hall x (List.mem_cons_of_mem e hx))
      simp only [runDpadMoves, hstep, hrest]
      simp

/-- Witness for C6: a pressed dpad at direction center with dead zone 10
receives two identical move events classifying to right; spec_C6 applied at
this concrete input shows the press callback fires exactly once. -/
theorem spec_C6_witness :
    runDpadMoves ⟨true, 1, DpadDirection.center, 10⟩
        [⟨1, 0, 20⟩, ⟨1, 0, 20⟩] =
      (⟨true, 1, DpadDirection.right, 10⟩, [DpadDirection.right]) := by
  have h := (spec_C6 ⟨true, 1, DpadDirection.center, 10⟩
      [⟨1, 0, 20⟩, ⟨1, 0, 20⟩] DpadDirection.right rfl (by simp)
      (fun e he => by
        have hemem : e = (⟨1, 0, 20⟩ : DpadMoveEvent) := by
          rcases List.mem_cons.mp he with h1 | h1
          · exact h1
          · simpa using h1
        rw [hemem]
        norm_num [dpadComputeDirection])).2 (by simp)
  simpa using h

/-- C1 (code evaluation): the dpad move handler does not filter by the
stored contact identifier.  After an acquire by pointer 1 at the center, a
move event carrying pointerId 2 at angle 0 and distance 20 (dead zone 10) is
processed: currentDirection changes from center to right and the press
callback fires, although the event pointerId differs from the stored one. -/
theorem spec_C1_eval :
    (onDpadDown ⟨false, -1, DpadDirection.center, 10⟩ ⟨1, 0, 0⟩).1 =
      ⟨true, 1, DpadDirection.center, 10⟩ ∧
    ((⟨2, 0, 20⟩ : DpadMoveEvent).pointerId ≠
      (⟨true, 1, DpadDirection.center, 10⟩ : DpadState).pointerId) ∧
    onDpadMove ⟨true, 1, DpadDirection.center, 10⟩ ⟨2, 0, 20⟩ =
      (⟨true, 1, DpadDirection.right, 10⟩, [DpadDirection.right]) := by
  refine ⟨?_, by norm_num, ?_⟩
  · norm_num [onDpadDown, onDpadMove, dpadComputeDirection]
  · norm_num [onDpadMove, dpadComputeDirection]
    decide

/-- C2 (counterexample): a slider release with valuePercent already 0 does
not invoke the release callback, contradicting the claim that the release
callback fires unconditionally. -/
theorem spec_C2_counterexample :
    (onSliderUp
        ⟨SliderOrientation.vertical, true, 0, ⟨0, 0, 100, 100⟩⟩).2 = false :=
  by norm_num [onSliderUp]

/-- C2 as amended: every slider release sets isPressed to false and leaves
valuePercent at 0; the release callback fires exactly when valuePercent was
nonzero before the release, and does not fire when it was already 0. -/
theorem spec_C2_amended (s : SliderState) :
    (onSliderUp s).1.isPressed = false ∧
    (onSliderUp s).1.valuePercent = 0 ∧
    (s.valuePercent ≠ 0 → (onSliderUp s).2 = true) ∧
    (s.valuePercent = 0 → (onSliderUp s).2 = false) := by
  unfold onSliderUp
  by_cases h : s.valuePercent = 0 <;> simp [h]

/-- Witness for C2: spec_C2_amended applied to a slider at valuePercent 5
shows the release callback fires there. -/
theorem spec_C2_witness :
    ((5 : ℚ) ≠ 0) ∧
    (onSliderUp
        ⟨SliderOrientation.vertical, true, 5, ⟨0, 0, 100, 100⟩⟩).2 = true :=
  ⟨by norm_num,
   (spec_C2_amended
       ⟨SliderOrientation.vertical, true, 5, ⟨0, 0, 100, 100⟩⟩).2.2.1
     (by norm_num)⟩

/-- C7 (counterexample): a pressed vertical slider at valuePercent 50 with
base rectangle top 0 and height 100 receives a move at clientY 50, which maps
to the same value 50; the slide callback does not fire, contradicting the
claim that the slider fires on every move while pressed. -/
theorem spec_C7_counterexample :
    onSliderMove ⟨SliderOrientation.vertical, true, 50, ⟨0, 0, 100, 100⟩⟩
        ⟨0, 50⟩ =
      (⟨SliderOrientation.vertical, true, 50, ⟨0, 0, 100, 100⟩⟩, []) := by
  norm_num [onSliderMove, setSliderValue, sliderMappedValue, sliderRawValue]

/-- Two-decimal rounding fixes 1. -/
theorem jsRound2_one : jsRound2 1 = 1 := by
  unfold jsRound2
  rw [show (1 : ℝ) * 100 = 100 by norm_num, round_eq]
  norm_num

/-- Two-decimal rounding fixes 0. -/
theorem jsRound2_zero : jsRound2 0 = 0 := by
  unfold jsRound2
  rw [show (0 : ℝ) * 100 = 0 by norm_num, round_eq]
  norm_num

/-- Two-decimal rounding moves a value by at most 1/200. -/
theorem jsRound2_err (v : ℝ) : |jsRound2 v - v| ≤ 1 / 200 := by
  unfold jsRound2
  have h := abs_sub_round (v * 100)
  rw [abs_sub_comm] at h
  rw [show ((round (v * 100) : ℤ) : ℝ) / 100 - v =
    (((round (v * 100) : ℤ) : ℝ) - v * 100) / 100 by ring, abs_div,
    abs_of_pos (by norm_num : (0 : ℝ) < 100)]
  linarith

/-- The hypot of a jointly scaled pair, for a nonnegative scale factor. -/
theorem jsHypot_mul (x y c : ℝ) (hc : 0 ≤ c) :
    jsHypot (x * c) (y * c) = c * jsHypot x y := by
  unfold jsHypot
  rw [show (x * c) ^ 2 + (y * c) ^ 2 = c ^ 2 * (x ^ 2 + y ^ 2) by ring,
    Real.sqrt_mul (sq_nonneg c), Real.sqrt_sq hc]

/-- Evaluation of the hypot at (50, 0). -/
theorem jsHypot_50_0 : jsHypot 50 0 = 50 := by
  unfold jsHypot
  rw [show (50 : ℝ) ^ 2 + 0 ^ 2 = 50 ^ 2 by norm_num,
    Real.sqrt_sq (by norm_num : (0 : ℝ) ≤ 50)]

/-- Evaluation of the hypot at (0, -50). -/
theorem jsHypot_0_m50 : jsHypot 0 (-50) = 50 := by
  unfold jsHypot
  rw [show (0 : ℝ) ^ 2 + (-50) ^ 2 = 50 ^ 2 by norm_num,
    Real.sqrt_sq (by norm_num : (0 : ℝ) ≤ 50)]

/-- Evaluation of the hypot at (6, 8). -/
theorem jsHypot_6_8 : jsHypot 6 8 = 10 := by
  unfold jsHypot
  rw [show (6 : ℝ) ^ 2 + 8 ^ 2 = 10 ^ 2 by norm_num,
    Real.sqrt_sq (by norm_num : (0 : ℝ) ≤ 10)]

/-- The move mapping at rotation 0 and radius 50 sends the offset (50, 0) to
the output (1, 0). -/
theorem joystickMoveOutput_right : joystickMoveOutput 0 50 50 0 = (1, 0) := by
  unfold joystickMoveOutput joystickClamp joystickRotate
  rw [jsHypot_50_0]
  norm_num
  exact ⟨jsRound2_one, jsRound2_zero⟩

/-- The move mapping at rotation 0 and radius 50 sends the offset (0, -50) to
the output (0, 1). -/
theorem joystickMoveOutput_up : joystickMoveOutput 0 50 0 (-50) = (0, 1) := by
  unfold joystickMoveOutput joystickClamp joystickRotate
  rw [jsHypot_0_m50]
  norm_num
  exact ⟨jsRound2_zero, jsRound2_one⟩

/-- Evaluation of `onJoysickMove` on a pressed state: the state is unchanged
and the input callback fires once with the mapped offset output. -/
theorem onJoysickMove_pressed (s : JoystickState) (e : PointerEventR)
    (hp : s.isPressed = true) :
    onJoysickMove s e = (s,
      [JoyCall.input
        (joystickMoveOutput s.rotationDeg s.thumbMaxDistance
          (e.clientX - (s.baseRect.left + s.baseRect.width / 2))
          (e.clientY - (s.baseRect.top + s.baseRect.height / 2))).1
        (joystickMoveOutput s.rotationDeg s.thumbMaxDistance
          (e.clientX - (s.baseRect.left + s.baseRect.width / 2))
          (e.clientY - (s.baseRect.top + s.baseRect.height / 2))).2]) := by
  unfold onJoysickMove
  rw [hp]
  simp

/-- C3 (counterexample): the joystick pointer-down handler has no Tracking
guard.  A joystick already pressed (rotation 0, radius 50, base rectangle
centered at the origin) receives a second contact-down from pointer 2 at
offset (50, 0): the handler processes it and fires the input callback with
(1, 0), contradicting the claim that it is ignored entirely with no callback. -/
theorem spec_C3_counterexample :
    (onJoysickDown ⟨true, 0, 50, ⟨-50, -50, 100, 100⟩⟩ ⟨2, 50, 0⟩).2 =
      [JoyCall.input 1 0] := by
  show (onJoysickMove ⟨true, 0, 50, ⟨-50, -50, 100, 100⟩⟩ ⟨2, 50, 0⟩).2 =
    [JoyCall.input 1 0]
  rw [onJoysickMove_pressed ⟨true, 0, 50, ⟨-50, -50, 100, 100⟩⟩
    ⟨2, 50, 0⟩ rfl]
  norm_num
  rw [joystickMoveOutput_right]
  exact ⟨rfl, rfl⟩

/-- C3 as amended: only the button ignores an acquire while already
Tracking (its press handler is a no-op when isPressed).  The joystick
pointer-down handler has no such guard: when already pressed it behaves
exactly like a move of the same event, and fires the input callback. -/
theorem spec_C3_amended :
    (∀ b : ButtonState, b.isPressed = true → onButtonDown b = (b, 0)) ∧
    (∀ (s : JoystickState) (e : PointerEventR), s.isPressed = true →
      onJoysickDown s e = onJoysickMove s e ∧ (onJoysickMove s e).2 ≠ []) := by
  constructor
  · intro b hb
    unfold onButtonDown
    rw [if_pos hb]
  · intro s e hp
    have hs : ({ s with isPressed := true } : JoystickState) = s := by
      cases s
      simp_all
    constructor
    · show onJoysickMove { s with isPressed := true } e = onJoysickMove s e
      rw [hs]
    · rw [onJoysickMove_pressed s e hp]
      simp

/-- Witness for C3: spec_C3_amended applied to a pressed button and to a
pressed joystick with a concrete event. -/
theorem spec_C3_witness :
    onButtonDown ⟨true⟩ = (⟨true⟩, 0) ∧
    onJoysickDown ⟨true, 0, 50, ⟨-50, -50, 100, 100⟩⟩ ⟨2, 10, 10⟩ =
      onJoysickMove ⟨true, 0, 50, ⟨-50, -50, 100, 100⟩⟩ ⟨2, 10, 10⟩ :=
  ⟨spec_C3_amended.1 ⟨true⟩ rfl,
   (spec_C3_amended.2 ⟨true, 0, 50, ⟨-50, -50, 100, 100⟩⟩ ⟨2, 10, 10⟩ rfl).1⟩

/-- C7 as amended: the joystick fires its input callback on every move while
pressed, with no change gate; the slider fires its slide callback on a move
while pressed exactly when the mapped value differs from the stored
valuePercent, and fires nothing when the mapped value equals it. -/
theorem spec_C7_amended :
    (∀ (s : JoystickState) (e : PointerEventR),
      s.isPressed = true → (onJoysickMove s e).2.length = 1) ∧
    (∀ (s : SliderState) (e : SliderEventQ), s.isPressed = true →
      (s.valuePercent ≠ sliderMappedValue s e →
        (onSliderMove s e).2 = [sliderMappedValue s e]) ∧
      (s.valuePercent = sliderMappedValue s e →
        (onSliderMove s e).2 = [])) := by
  constructor
  · intro s e hp
    rw [onJoysickMove_pressed s e hp]
    rfl
  · intro s e hp
    unfold onSliderMove setSliderValue
    rw [hp]
    constructor
    · intro hne
      simp [hne]
    · intro heq
      simp [heq]

/-- Witness for C7: spec_C7_amended applied to a pressed joystick and to a
pressed vertical slider at valuePercent 50 moved to clientY 25, where the
mapped value 75 differs and the slide callback fires with 75. -/
theorem spec_C7_witness :
    (onJoysickMove ⟨true, 0, 50, ⟨-50, -50, 100, 100⟩⟩ ⟨1, 10, 10⟩).2.length
        = 1 ∧
    (onSliderMove ⟨SliderOrientation.vertical, true, 50, ⟨0, 0, 100, 100⟩⟩
        ⟨0, 25⟩).2 = [75] := by
  constructor
  · exact spec_C7_amended.1 ⟨true, 0, 50, ⟨-50, -50, 100, 100⟩⟩ ⟨1, 10, 10⟩ rfl
  · have h := (spec_C7_amended.2
      ⟨SliderOrientation.vertical, true, 50, ⟨0, 0, 100, 100⟩⟩ ⟨0, 25⟩ rfl).1
      (by norm_num [sliderMappedValue, sliderRawValue])
    rw [h]
    norm_num [sliderMappedValue, sliderRawValue]

/-- C10: the joystick release and cancel handler has no isPressed guard: for
every state, pressed or not, it sets isPressed to false and fires the release
callback with (0, 0); a second release in a row fires it again. -/
theorem spec_C10 (s : JoystickState) :
    onJoysickUp s = ({ s with isPressed := false }, [JoyCall.release 0 0]) ∧
    (onJoysickUp (onJoysickUp s).1).2 = [JoyCall.release 0 0] :=
  ⟨rfl, rfl⟩

/-- C8: scenario for a joystick with radius 50 and rotation 0, base rectangle
centered at the origin: an acquire by pointer 1 at offset (50, 0) fires the
input callback with (1.00, 0.00) and marks the state pressed; a move to
offset (0, -50) fires the input callback with (0.00, 1.00); a release fires
the release callback with (0.00, 0.00) and marks the state not pressed. -/
theorem spec_C8 :
    (onJoysickDown ⟨false, 0, 50, ⟨-50, -50, 100, 100⟩⟩ ⟨1, 50, 0⟩).2 =
        [JoyCall.input 1 0] ∧
    (onJoysickDown ⟨false, 0, 50, ⟨-50, -50, 100, 100⟩⟩ ⟨1, 50, 0⟩).1 =
        ⟨true, 0, 50, ⟨-50, -50, 100, 100⟩⟩ ∧
    (onJoysickMove ⟨true, 0, 50, ⟨-50, -50, 100, 100⟩⟩ ⟨1, 0, -50⟩).2 =
        [JoyCall.input 0 1] ∧
    onJoysickUp ⟨true, 0, 50, ⟨-50, -50, 100, 100⟩⟩ =
        (⟨false, 0, 50, ⟨-50, -50, 100, 100⟩⟩, [JoyCall.release 0 0]) := by
  refine ⟨?_, ?_, ?_, rfl⟩
  · show (onJoysickMove ⟨true, 0, 50, ⟨-50, -50, 100, 100⟩⟩ ⟨1, 50, 0⟩).2 =
      [JoyCall.input 1 0]
    rw [onJoysickMove_pressed ⟨true, 0, 50, ⟨-50, -50, 100, 100⟩⟩
      ⟨1, 50, 0⟩ rfl]
    norm_num
    rw [joystickMoveOutput_right]
    exact ⟨rfl, rfl⟩
  · show (onJoysickMove ⟨true, 0, 50, ⟨-50, -50, 100, 100⟩⟩ ⟨1, 50, 0⟩).1 =
      ⟨true, 0, 50, ⟨-50, -50, 100, 100⟩⟩
    rw [onJoysickMove_pressed ⟨true, 0, 50, ⟨-50, -50, 100, 100⟩⟩
      ⟨1, 50, 0⟩ rfl]
  · rw [onJoysickMove_pressed ⟨true, 0, 50, ⟨-50, -50, 100, 100⟩⟩
      ⟨1, 0, -50⟩ rfl]
    norm_num
    rw [joystickMoveOutput_up]
    exact ⟨rfl, rfl⟩

/-- C5: for every joystick move offset, when the hypot of the offset is at
most the travel radius the clamp leaves it unchanged; when it exceeds the
radius the clamp scales both coordinates by the positive factor
radius / hypot (preserving direction), the clamped offset has hypot exactly
the radius, the move output (at rotation 0) is the two-decimal rounding of
the normalized clamped offset with the y coordinate negated, the normalized
clamped offset has hypot exactly 1, and each rounded coordinate is within
1/200 of the exact normalized value. -/
theorem spec_C5 (tmd x y : ℝ) (htmd : 0 < tmd) :
    (jsHypot x y ≤ tmd → joystickClamp tmd x y = (x, y)) ∧
    (tmd < jsHypot x y →
      joystickClamp tmd x y =
        (x * (tmd / jsHypot x y), y * (tmd / jsHypot x y)) ∧
      0 < tmd / jsHypot x y ∧
      jsHypot (joystickClamp tmd x y).1 (joystickClamp tmd x y).2 = tmd ∧
      joystickMoveOutput 0 tmd x y =
        (jsRound2 ((joystickClamp tmd x y).1 / tmd),
         jsRound2 (-(joystickClamp tmd x y).2 / tmd)) ∧
      jsHypot ((joystickClamp tmd x y).1 / tmd)
        ((joystickClamp tmd x y).2 / tmd) = 1 ∧
      |jsRound2 ((joystickClamp tmd x y).1 / tmd) -
        (joystickClamp tmd x y).1 / tmd| ≤ 1 / 200 ∧
      |jsRound2 (-(joystickClamp tmd x y).2 / tmd) -
        -(joystickClamp tmd x y).2 / tmd| ≤ 1 / 200) := by
  constructor
  · intro h
    unfold joystickClamp
    rw [if_neg (not_lt.mpr h)]
  · intro hgt
    have hd0 : 0 < jsHypot x y := lt_trans htmd hgt
    have hcl : joystickClamp tmd x y =
        (x * (tmd / jsHypot x y), y * (tmd / jsHypot x y)) := by
      unfold joystickClamp
      rw [if_pos hgt]
    have hcpos : 0 < tmd / jsHypot x y := div_pos htmd hd0
    have hhyp : jsHypot (joystickClamp tmd x y).1 (joystickClamp tmd x y).2 =
        tmd := by
      rw [hcl]
      show jsHypot (x * (tmd / jsHypot x y)) (y * (tmd / jsHypot x y)) = tmd
      rw [jsHypot_mul x y (tmd / jsHypot x y) hcpos.le,
        div_mul_cancel₀ tmd hd0.ne']
    have hout : joystickMoveOutput 0 tmd x y =
        (jsRound2 ((joystickClamp tmd x y).1 / tmd),
         jsRound2 (-(joystickClamp tmd x y).2 / tmd)) := by
      unfold joystickMoveOutput joystickRotate
      simp
    have hunit : jsHypot ((joystickClamp tmd x y).1 / tmd)
        ((joystickClamp tmd x y).2 / tmd) = 1 := by
      rw [div_eq_mul_inv ((joystickClamp tmd x y).1) tmd,
        div_eq_mul_inv ((joystickClamp tmd x y).2) tmd,
        jsHypot_mul _ _ _ (inv_nonneg.mpr htmd.le), hhyp,
        inv_mul_cancel₀ htmd.ne']
    exact ⟨hcl, hcpos, hhyp, hout, hunit, jsRound2_err _, jsRound2_err _⟩

/-- Witness for C5: spec_C5 applied at radius 5 and offset (6, 8), whose
hypot 10 exceeds the radius: the clamp scales by 5 / 10 and the clamped
offset has hypot exactly 5. -/
theorem spec_C5_witness :
    (0 : ℝ) < 5 ∧ (5 : ℝ) < jsHypot 6 8 ∧
    joystickClamp 5 6 8 = (6 * (5 / jsHypot 6 8), 8 * (5 / jsHypot 6 8)) ∧
    jsHypot (joystickClamp 5 6 8).1 (joystickClamp 5 6 8).2 = 5 := by
  have hlt : (5 : ℝ) < jsHypot 6 8 := by
    rw [jsHypot_6_8]
    norm_num
  have h := (spec_C5 5 6 8 (by norm_num)).2 hlt
  exact ⟨by norm_num, hlt, h.1, h.2.2.1⟩

/-- C9: rotation invariance of the joystick.  For every rotation angle and
every travel distance d between 0 and the radius, a move offset pointing
toward the visual up of the widget (the logical-up offset (0, -d) rotated by
the configured angle) produces the same output as the offset (0, -d) itself
on a widget with rotation 0, because the move mapping rotates the clamped
offset back by the opposite angle before normalizing. -/
theorem spec_C9 (θ tmd d : ℝ) (htmd : 0 < tmd) (hd : 0 ≤ d)
    (hdle : d ≤ tmd) :
    joystickMoveOutput θ tmd (rotPointDeg θ 0 (-d)).1
        (rotPointDeg θ 0 (-d)).2 =
      joystickMoveOutput 0 tmd 0 (-d) := by
  have hsc := Real.sin_sq_add_cos_sq (θ * Real.pi / 180)
  have hrp1 : (rotPointDeg θ 0 (-d)).1 =
      d * Real.sin (θ * Real.pi / 180) := by
    unfold rotPointDeg
    ring
  have hrp2 : (rotPointDeg θ 0 (-d)).2 =
      -(d * Real.cos (θ * Real.pi / 180)) := by
    unfold rotPointDeg
    ring
  rw [hrp1, hrp2]
  have hhyp1 : jsHypot (d * Real.sin (θ * Real.pi / 180))
      (-(d * Real.cos (θ * Real.pi / 180))) = d := by
    unfold jsHypot
    rw [show (d * Real.sin (θ * Real.pi / 180)) ^ 2 +
        (-(d * Real.cos (θ * Real.pi / 180))) ^ 2 = d ^ 2 from by
      linear_combination d ^ 2 * hsc]
    exact Real.sqrt_sq hd
  have hhyp2 : jsHypot 0 (-d) = d := by
    unfold jsHypot
    rw [show (0 : ℝ) ^ 2 + (-d) ^ 2 = d ^ 2 from by ring]
    exact Real.sqrt_sq hd
  have hcl1 : joystickClamp tmd (d * Real.sin (θ * Real.pi / 180))
      (-(d * Real.cos (θ * Real.pi / 180))) =
      (d * Real.sin (θ * Real.pi / 180),
       -(d * Real.cos (θ * Real.pi / 180))) := by
    unfold joystickClamp
    rw [hhyp1, if_neg (not_lt.mpr hdle)]
  have hcl2 : joystickClamp tmd 0 (-d) = (0, -d) := by
    unfold joystickClamp
    rw [hhyp2, if_neg (not_lt.mpr hdle)]
  have hrot2 : joystickRotate 0 0 (-d) = (0, -d) := by
    unfold joystickRotate
    simp
  have hrot1 : joystickRotate θ (d * Real.sin (θ * Real.pi / 180))
      (-(d * Real.cos (θ * Real.pi / 180))) = (0, -d) := by
    by_cases hθ : θ = 0
    · subst hθ
      unfold joystickRotate
      simp
    · unfold joystickRotate
      rw [if_pos hθ]
      rw [show -θ * Real.pi / 180 = -(θ * Real.pi / 180) from by ring,
        Real.cos_neg, Real.sin_neg]
      have c1 : d * Real.sin (θ * Real.pi / 180) *
          Real.cos (θ * Real.pi / 180) -
          -(d * Real.cos (θ * Real.pi / 180)) *
          -Real.sin (θ * Real.pi / 180) = 0 := by
        ring
      have c2 : d * Real.sin (θ * Real.pi / 180) *
          -Real.sin (θ * Real.pi / 180) +
          -(d * Real.cos (θ * Real.pi / 180)) *
          Real.cos (θ * Real.pi / 180) = -d := by
        linear_combination (-d) * hsc
      rw [c1, c2]
  simp only [joystickMoveOutput]
  rw [hcl1, hcl2]
  simp only
  rw [hrot1, hrot2]

/-- Witness for C9: spec_C9 applied at rotation 90, radius 1 and distance 1:
pushing toward the visual up of a widget rotated 90 degrees gives the same
output as pushing toward logical up on an unrotated widget. -/
theorem spec_C9_witness :
    (0 : ℝ) < 1 ∧ (0 : ℝ) ≤ 1 ∧ (1 : ℝ) ≤ 1 ∧
    joystickMoveOutput 90 1 (rotPointDeg 90 0 (-1)).1
        (rotPointDeg 90 0 (-1)).2 =
      joystickMoveOutput 0 1 0 (-1) :=
  ⟨by norm_num, by norm_num, le_refl 1,
   spec_C9 90 1 1 (by norm_num) (by norm_num) (by norm_num)⟩
